import Mathlib

/-
Formal model of the SignQuest 2D platformer (Phaser + Tauri repository).

The repository code is a set of thin wrapper classes over the Phaser engine:
an input manager, a player, a parallax background manager, an obstacle with a
proximity affordance, a quest-board popup panel, and a scene coordinator that
wires them together and runs a fixed-order per-frame update.

This file embeds those classes as pure Lean functions over explicit state
records.  Engine-owned facts (integrated position, ground contact, elapsed
tween time, camera scroll) enter as event parameters.  Numbers are modeled as
rationals; the repository only ever combines its numeric constants with +, *,
comparison and Math.round, so rationals represent the JavaScript values
exactly on every input used here.
-/

/-- Snapshot of the keyboard state relevant to InputManager queries.
The interact query (key E) is edge triggered in the source
(Phaser JustDown), so it is carried as its own per-frame flag. -/
structure KeyboardState where
  left : Bool
  right : Bool
  up : Bool
  space : Bool
  shift : Bool
  interactJustPressed : Bool
deriving DecidableEq

namespace InputManager

/-- Source: InputManager.isMovingLeft, reads cursors.left.isDown. -/
def isMovingLeft (k : KeyboardState) : Bool := k.left

/-- Source: InputManager.isMovingRight, reads cursors.right.isDown. -/
def isMovingRight (k : KeyboardState) : Bool := k.right

/-- Source: InputManager.isJumping, up arrow or space held. -/
def isJumping (k : KeyboardState) : Bool := k.up || k.space

/-- Source: InputManager.isRunning, keyboard.checkDown on shift with 0 delay,
true whenever shift is held. -/
def isRunning (k : KeyboardState) : Bool := k.shift

/-- Source: InputManager.isMovingHorizontally. -/
def isMovingHorizontally (k : KeyboardState) : Bool := isMovingLeft k || isMovingRight k

/-- Source: InputManager.getHorizontalDirection; left is checked first,
then right, else 0. -/
def getHorizontalDirection (k : KeyboardState) : ℤ :=
  if isMovingLeft k then -1 else if isMovingRight k then 1 else 0

/-- Source: InputManager.isInteractPressed, Phaser JustDown on key E. -/
def isInteractPressed (k : KeyboardState) : Bool := k.interactJustPressed

end InputManager

namespace PLAYER_CONFIG

/-- Source: PLAYER_CONFIG.WALK_SPEED in GameConstants. -/
def WALK_SPEED : ℚ := 200

/-- Source: PLAYER_CONFIG.RUN_SPEED in GameConstants. -/
def RUN_SPEED : ℚ := 300

/-- Source: PLAYER_CONFIG.JUMP_VELOCITY in GameConstants. -/
def JUMP_VELOCITY : ℚ := -500

/-- Source: PLAYER_CONFIG.STARTING_X in GameConstants. -/
def STARTING_X : ℚ := 300

/-- Source: PLAYER_CONFIG.STARTING_Y in GameConstants. -/
def STARTING_Y : ℚ := 800

end PLAYER_CONFIG

/-- Animation keys the Player system plays on its sprite. -/
inductive PlayerAnim where
  | idle
  | run
  | jump
deriving DecidableEq

/-- State owned by the Player wrapper: sprite position and velocity,
the movement-enabled flag canMove, sprite flip, current animation, and a
count of spawned jump-dust effect sprites. -/
structure PlayerState where
  x : ℚ
  y : ℚ
  velocityX : ℚ
  velocityY : ℚ
  canMove : Bool
  flipX : Bool
  anim : PlayerAnim
  dustSpawns : ℕ
deriving DecidableEq

namespace Player

/-- Source: Player.jump — sets vertical velocity to JUMP_VELOCITY, plays the
jump animation and spawns the jump-dust effect sprite. -/
def jump (p : PlayerState) : PlayerState :=
  { p with velocityY := PLAYER_CONFIG.JUMP_VELOCITY,
           anim := PlayerAnim.jump,
           dustSpawns := p.dustSpawns + 1 }

/-- Source: Player.handleMovement.  When canMove is false it zeroes the
horizontal velocity and returns early.  Otherwise it sets horizontal velocity
from the input direction and walk/run speed, selects run/idle animation while
grounded, and finally starts a jump when the jump input is held and the
player is grounded.  isOnGround is the engine collision flag
(body.touching.down). -/
def handleMovement (k : KeyboardState) (isOnGround : Bool) (p : PlayerState) : PlayerState :=
  if !p.canMove then
    { p with velocityX := 0 }
  else
    let direction := InputManager.getHorizontalDirection k
    let speed := if InputManager.isRunning k then PLAYER_CONFIG.RUN_SPEED
                 else PLAYER_CONFIG.WALK_SPEED
    let p1 :=
      if direction ≠ 0 then
        { p with velocityX := (direction : ℚ) * speed,
                 flipX := decide (direction < 0),
                 anim := if isOnGround then PlayerAnim.run else p.anim }
      else
        { p with velocityX := 0,
                 anim := if isOnGround then PlayerAnim.idle else p.anim }
    if InputManager.isJumping k && isOnGround then jump p1 else p1

/-- Source: Player.preventPixelBlur — rounds the sprite position to whole
numbers (JavaScript Math.round, which is floor of x + 1/2, matching Mathlib
round on the rationals). -/
def preventPixelBlur (p : PlayerState) : PlayerState :=
  { p with x := ((round p.x : ℤ) : ℚ), y := ((round p.y : ℤ) : ℚ) }

/-- Source: Player.update — handleMovement followed by preventPixelBlur. -/
def update (k : KeyboardState) (isOnGround : Bool) (p : PlayerState) : PlayerState :=
  preventPixelBlur (handleMovement k isOnGround p)

/-- Source: Player.enableMovement. -/
def enableMovement (p : PlayerState) : PlayerState :=
  { p with canMove := true }

/-- Source: Player.disableMovement — clears the flag and zeroes horizontal
velocity immediately. -/
def disableMovement (p : PlayerState) : PlayerState :=
  { p with canMove := false, velocityX := 0 }

/-- Source: Player.canPlayerMove. -/
def canPlayerMove (p : PlayerState) : Bool := p.canMove

end Player

/-- C9: for every keyboard state the direction query returns a value in
-1, 0, 1, and when both left and right are held it returns -1 because
left is checked first (left-priority tie-break). -/
theorem c9_direction (k : KeyboardState) :
    (InputManager.getHorizontalDirection k = -1 ∨
      InputManager.getHorizontalDirection k = 0 ∨
      InputManager.getHorizontalDirection k = 1)
    ∧ (InputManager.isMovingLeft k = true → InputManager.isMovingRight k = true →
        InputManager.getHorizontalDirection k = -1) := by
  unfold InputManager.getHorizontalDirection InputManager.isMovingLeft InputManager.isMovingRight
  rcases k with ⟨l, r, u, sp, sh, e⟩
  cases l <;> cases r <;> simp

/-- C9 witness: with both left and right held the direction query returns -1. -/
theorem c9_witness :
    InputManager.isMovingLeft ⟨true, true, false, false, false, false⟩ = true
    ∧ InputManager.isMovingRight ⟨true, true, false, false, false, false⟩ = true
    ∧ InputManager.getHorizontalDirection ⟨true, true, false, false, false, false⟩ = -1 :=
  ⟨rfl, rfl, (c9_direction ⟨true, true, false, false, false, false⟩).2 rfl rfl⟩

/-- C10: enableMovement after disableMovement restores full directional
control on the very next update call: that update sets horizontal velocity to
direction times walk-or-run speed (zero when no direction is pressed), with
no residual suppression from the disabled period. -/
theorem c10_round_trip (k : KeyboardState) (isOnGround : Bool) (p : PlayerState) :
    (Player.update k isOnGround (Player.enableMovement (Player.disableMovement p))).velocityX
      = (InputManager.getHorizontalDirection k : ℚ)
        * (if InputManager.isRunning k then PLAYER_CONFIG.RUN_SPEED
           else PLAYER_CONFIG.WALK_SPEED) := by
  unfold Player.update Player.enableMovement Player.disableMovement Player.preventPixelBlur
    Player.handleMovement Player.jump InputManager.getHorizontalDirection
    InputManager.isMovingLeft InputManager.isMovingRight InputManager.isJumping
    InputManager.isRunning
  rcases k with ⟨l, r, u, sp, sh, e⟩
  cases l <;> cases r <;> cases u <;> cases sp <;> cases sh <;> cases isOnGround <;> simp

/-- C3 counterexample: with movement disabled, a grounded player and the jump
input held, update leaves vertical velocity unchanged (it stays 0 instead of
becoming JUMP_VELOCITY = -500): a held jump input does NOT take effect while
movement is disabled, because handleMovement returns before the jump check. -/
theorem c3_counterexample :
    InputManager.isJumping ⟨false, false, true, false, false, false⟩ = true
    ∧ (⟨300, 800, 0, 0, false, false, PlayerAnim.idle, 0⟩ : PlayerState).canMove = false
    ∧ (Player.update ⟨false, false, true, false, false, false⟩ true
        ⟨300, 800, 0, 0, false, false, PlayerAnim.idle, 0⟩).velocityY = 0
    ∧ PLAYER_CONFIG.JUMP_VELOCITY ≠ (0 : ℚ) := by
  refine ⟨rfl, rfl, rfl, by norm_num [PLAYER_CONFIG.JUMP_VELOCITY]⟩

/-- C3 amended: for every frame in which canMove is false, update forces
horizontal velocity to 0 regardless of the input, and leaves vertical
velocity unchanged (so engine gravity and in-flight jump motion continue);
in particular update never initiates a new jump while disabled, even when
the jump input is held. -/
theorem c3_amended (k : KeyboardState) (isOnGround : Bool) (p : PlayerState)
    (h : p.canMove = false) :
    (Player.update k isOnGround p).velocityX = 0
    ∧ (Player.update k isOnGround p).velocityY = p.velocityY := by
  unfold Player.update Player.preventPixelBlur Player.handleMovement
  simp [h]

/-- C3 witness: concrete disabled state with jump and direction input held. -/
theorem c3_witness :
    (⟨300, 800, 7, 5, false, true, PlayerAnim.idle, 0⟩ : PlayerState).canMove = false
    ∧ (Player.update ⟨true, false, true, false, true, false⟩ true
        ⟨300, 800, 7, 5, false, true, PlayerAnim.idle, 0⟩).velocityX = 0
    ∧ (Player.update ⟨true, false, true, false, true, false⟩ true
        ⟨300, 800, 7, 5, false, true, PlayerAnim.idle, 0⟩).velocityY
        = (⟨300, 800, 7, 5, false, true, PlayerAnim.idle, 0⟩ : PlayerState).velocityY :=
  ⟨rfl,
   (c3_amended ⟨true, false, true, false, true, false⟩ true
     ⟨300, 800, 7, 5, false, true, PlayerAnim.idle, 0⟩ rfl).1,
   (c3_amended ⟨true, false, true, false, true, false⟩ true
     ⟨300, 800, 7, 5, false, true, PlayerAnim.idle, 0⟩ rfl).2⟩

namespace BACKGROUND_CONFIG

/-- Source: BACKGROUND_CONFIG.SCROLL_SPEEDS.BACK_SKY. -/
def BACK_SKY : ℚ := 0.1

/-- Source: BACKGROUND_CONFIG.SCROLL_SPEEDS.SKY_GLOW. -/
def SKY_GLOW : ℚ := 0.1

/-- Source: BACKGROUND_CONFIG.SCROLL_SPEEDS.CLOUDS. -/
def CLOUDS : ℚ := 0.1

/-- Source: BACKGROUND_CONFIG.SCROLL_SPEEDS.MIDGROUND_ROCKS. -/
def MIDGROUND_ROCKS : ℚ := 0.2

/-- Source: BACKGROUND_CONFIG.SCROLL_SPEEDS.FOREGROUND_ROCKS. -/
def FOREGROUND_ROCKS : ℚ := 0.3

/-- Source: BACKGROUND_CONFIG.SCROLL_SPEEDS.GROUND_LAYER (same speed as the player). -/
def GROUND_LAYER : ℚ := 1.0

end BACKGROUND_CONFIG

/-- Texture offsets (tilePositionX) of the tiling background layers owned by
BackgroundManager, in back-to-front creation order; backSky is the back-most
layer.  The planet layer is a static non-tiling image that never moves, so it
carries no offset here. -/
structure BackgroundState where
  backSky : ℚ
  skyGlow : ℚ
  clouds : ℚ
  midgroundRocks : ℚ
  foregroundRocks : ℚ
  groundLayer : ℚ
deriving DecidableEq

/-- Source: BackgroundManager.updateParallax.  Reads the camera scroll once;
the back-most backSky layer accumulates a fixed increment each frame, every
other tiling layer is set to cameraScrollX times its speed coefficient. -/
def updateParallax (cameraScrollX : ℚ) (b : BackgroundState) : BackgroundState :=
  { backSky := b.backSky + BACKGROUND_CONFIG.BACK_SKY,
    skyGlow := cameraScrollX * BACKGROUND_CONFIG.SKY_GLOW,
    clouds := cameraScrollX * BACKGROUND_CONFIG.CLOUDS,
    midgroundRocks := cameraScrollX * BACKGROUND_CONFIG.MIDGROUND_ROCKS,
    foregroundRocks := cameraScrollX * BACKGROUND_CONFIG.FOREGROUND_ROCKS,
    groundLayer := cameraScrollX * BACKGROUND_CONFIG.GROUND_LAYER }

/-- C8: one updateParallax pass sets each camera-driven tiling layer to
cameraScrollX times its speed coefficient (a coefficient 0.3 layer at camera
scroll 100 gets offset exactly 30), while the back-most backSky layer instead
increments its offset by a fixed constant, independent of the camera scroll
value. -/
theorem c8_parallax (c : ℚ) (b : BackgroundState) :
    (updateParallax c b).skyGlow = c * BACKGROUND_CONFIG.SKY_GLOW
    ∧ (updateParallax c b).clouds = c * BACKGROUND_CONFIG.CLOUDS
    ∧ (updateParallax c b).midgroundRocks = c * BACKGROUND_CONFIG.MIDGROUND_ROCKS
    ∧ (updateParallax c b).foregroundRocks = c * BACKGROUND_CONFIG.FOREGROUND_ROCKS
    ∧ (updateParallax c b).groundLayer = c * BACKGROUND_CONFIG.GROUND_LAYER
    ∧ (updateParallax c b).backSky = b.backSky + BACKGROUND_CONFIG.BACK_SKY
    ∧ (∀ c2 : ℚ, (updateParallax c2 b).backSky = (updateParallax c b).backSky)
    ∧ (updateParallax 100 b).foregroundRocks = 30 := by
  refine ⟨rfl, rfl, rfl, rfl, rfl, rfl, fun c2 => rfl, ?_⟩
  show (100 : ℚ) * BACKGROUND_CONFIG.FOREGROUND_ROCKS = 30
  norm_num [BACKGROUND_CONFIG.FOREGROUND_ROCKS]

/-- Source: BaseObstacle.isPlayerNearby — Phaser.Math.Distance.Between is the
planar Euclidean distance, and the comparison against the interaction
distance is strict less-than.  Stated over the reals via Real.sqrt, exactly
as the source computes it. -/
def isPlayerNearby (px py ox oy r : ℚ) : Prop :=
  Real.sqrt (((px : ℝ) - (ox : ℝ)) ^ 2 + ((py : ℝ) - (oy : ℝ)) ^ 2) < (r : ℝ)

/-- Executable form of BaseObstacle.isPlayerNearby, comparing squared
distances in the rationals; isPlayerNearbyB_iff proves it equivalent to the
square-root form of the source for every nonnegative radius. -/
def isPlayerNearbyB (px py ox oy r : ℚ) : Bool :=
  decide ((px - ox) ^ 2 + (py - oy) ^ 2 < r ^ 2)

lemma isPlayerNearbyB_iff (px py ox oy r : ℚ) (hr : 0 ≤ r) :
    isPlayerNearbyB px py ox oy r = true ↔ isPlayerNearby px py ox oy r := by
  unfold isPlayerNearbyB isPlayerNearby
  rw [decide_eq_true_iff]
  have hx : (0 : ℝ) ≤ ((px : ℝ) - (ox : ℝ)) ^ 2 + ((py : ℝ) - (oy : ℝ)) ^ 2 := by positivity
  have hy : (0 : ℝ) ≤ (r : ℝ) := by exact_mod_cast hr
  rw [Real.sqrt_lt hx hy]
  constructor <;> intro h <;> exact_mod_cast h

/-- C4: the proximity predicate holds if and only if the planar Euclidean
distance between player and obstacle anchor is strictly less than the
interaction radius, and at distance exactly equal to the radius the predicate
is false (affordance hidden at the boundary). -/
theorem c4_nearby_iff (px py ox oy r : ℚ) (hr : 0 ≤ r) :
    (isPlayerNearbyB px py ox oy r = true ↔ isPlayerNearby px py ox oy r)
    ∧ (Real.sqrt (((px : ℝ) - (ox : ℝ)) ^ 2 + ((py : ℝ) - (oy : ℝ)) ^ 2) = (r : ℝ) →
        isPlayerNearbyB px py ox oy r = false) := by
  refine ⟨isPlayerNearbyB_iff px py ox oy r hr, ?_⟩
  intro heq
  cases hb : isPlayerNearbyB px py ox oy r with
  | false => rfl
  | true =>
    exfalso
    have hlt := (isPlayerNearbyB_iff px py ox oy r hr).mp hb
    unfold isPlayerNearby at hlt
    rw [heq] at hlt
    exact lt_irrefl _ hlt

/-- C4 witness: player at horizontal distance 99 from the obstacle anchor
with radius 100 — inside strictly, and the executable predicate evaluates to
true. -/
theorem c4_witness :
    (0 : ℚ) ≤ 100
    ∧ isPlayerNearbyB 1299 930 1200 930 100 = true
    ∧ ((isPlayerNearbyB 1299 930 1200 930 100 = true ↔ isPlayerNearby 1299 930 1200 930 100)
       ∧ (Real.sqrt ((((1299 : ℚ) : ℝ) - ((1200 : ℚ) : ℝ)) ^ 2
            + (((930 : ℚ) : ℝ) - ((930 : ℚ) : ℝ)) ^ 2) = ((100 : ℚ) : ℝ) →
           isPlayerNearbyB 1299 930 1200 930 100 = false)) :=
  ⟨by norm_num, by simp only [isPlayerNearbyB, decide_eq_true_eq]; norm_num,
   c4_nearby_iff 1299 930 1200 930 100 (by norm_num)⟩

/-- State owned by the QuestBoard popup, parametric in the type of close
callbacks so that callback identity is observable.  The container fields
mirror the Phaser container the board draws into; openTweens and closeTweens
hold the remaining durations of running fade-in and fade-out tweens;
tweensStarted counts every tween ever added; callbackLog records each
invocation of the stored close callback, in order. -/
structure QuestBoardState (κ : Type) where
  isVisible : Bool
  containerVisible : Bool
  containerAlpha : ℚ
  containerScaleX : ℚ
  containerScaleY : ℚ
  onCloseCallback : Option κ
  openTweens : List ℚ
  closeTweens : List ℚ
  tweensStarted : ℕ
  callbackLog : List κ
deriving DecidableEq

/-- Source: QuestBoard constructor / createQuestBoard — builds the UI and
initially hides the container; no callback stored, no tween running. -/
def initialQuestBoard {κ : Type} : QuestBoardState κ :=
  { isVisible := false, containerVisible := false, containerAlpha := 1,
    containerScaleX := 1, containerScaleY := 1, onCloseCallback := none,
    openTweens := [], closeTweens := [], tweensStarted := 0, callbackLog := [] }

namespace QuestBoard

/-- Source: QuestBoard.showQuestBoard — guarded by isVisible; stores the
callback, shows the container, resets alpha to 0 and scale to 0.8, and adds a
400 ms fade-in tween. -/
def showQuestBoard {κ : Type} (onCloseCallback : Option κ) (s : QuestBoardState κ) :
    QuestBoardState κ :=
  if !s.isVisible then
    { s with onCloseCallback := onCloseCallback,
             containerVisible := true,
             isVisible := true,
             containerAlpha := 0,
             containerScaleX := 0.8,
             containerScaleY := 0.8,
             openTweens := s.openTweens ++ [400],
             tweensStarted := s.tweensStarted + 1 }
  else s

/-- Source: QuestBoard.hideQuestBoard — guarded by isVisible; adds a 300 ms
fade-out tween whose completion callback hides the container and clears
isVisible (applied in tweenTick).  Note it does not itself change isVisible
or invoke the close callback. -/
def hideQuestBoard {κ : Type} (s : QuestBoardState κ) : QuestBoardState κ :=
  if s.isVisible then
    { s with closeTweens := s.closeTweens ++ [300],
             tweensStarted := s.tweensStarted + 1 }
  else s

/-- Source: the okButton pointerdown handler in QuestBoard.createQuestBoard —
calls hideQuestBoard and then, if a close callback is stored, invokes it
immediately (synchronously, before the fade-out tween completes). -/
def okPointerDown {κ : Type} (s : QuestBoardState κ) : QuestBoardState κ :=
  let s1 := hideQuestBoard s
  match s1.onCloseCallback with
  | some cb => { s1 with callbackLog := s1.callbackLog ++ [cb] }
  | none => s1

/-- Engine tween progression: dt time units pass.  Every running tween loses
dt from its remaining duration; tweens that reach zero complete.  A
completing fade-in leaves alpha and scale at their target 1; a completing
fade-out applies its onComplete from the source (container hidden, isVisible
cleared) with endpoint alpha 0 and scale 0.8. -/
def tweenTick {κ : Type} (dt : ℚ) (s : QuestBoardState κ) : QuestBoardState κ :=
  let openLeft := s.openTweens.map (fun t => t - dt)
  let closeLeft := s.closeTweens.map (fun t => t - dt)
  let openDone := openLeft.any (fun t => decide (t ≤ 0))
  let closeDone := closeLeft.any (fun t => decide (t ≤ 0))
  { s with
    openTweens := openLeft.filter (fun t => decide (0 < t)),
    closeTweens := closeLeft.filter (fun t => decide (0 < t)),
    containerAlpha := if closeDone then 0 else if openDone then 1 else s.containerAlpha,
    containerScaleX := if closeDone then 0.8 else if openDone then 1 else s.containerScaleX,
    containerScaleY := if closeDone then 0.8 else if openDone then 1 else s.containerScaleY,
    containerVisible := if closeDone then false else s.containerVisible,
    isVisible := if closeDone then false else s.isVisible }

/-- Source: QuestBoard.isQuestBoardVisible. -/
def isQuestBoardVisible {κ : Type} (s : QuestBoardState κ) : Bool := s.isVisible

end QuestBoard

/-- C7: showQuestBoard is idempotent while the panel is already open — a
second open call without an intervening close leaves the entire state
unchanged: no visible effect, no duplicate transition, and the stored close
callback is not overwritten. -/
theorem c7_open_idempotent {κ : Type} (s : QuestBoardState κ) (cb cb2 : Option κ) :
    QuestBoard.showQuestBoard cb2 (QuestBoard.showQuestBoard cb s)
      = QuestBoard.showQuestBoard cb s := by
  unfold QuestBoard.showQuestBoard
  cases h : s.isVisible <;> simp [h]

/-- C1 counterexample: open the panel with callback 0 stored, then click OK.
The close callback is invoked synchronously in the pointerdown handler (the
callback log already holds the invocation while the 300 ms fade-out tween has
its full duration remaining and the panel is still marked visible), refuting
the claim that the callback fires only after the fade-out transition
completes and never synchronously. -/
theorem c1_counterexample :
    (QuestBoard.okPointerDown
      (QuestBoard.showQuestBoard (some 0) (initialQuestBoard : QuestBoardState ℕ))).callbackLog
      = [0]
    ∧ (QuestBoard.okPointerDown
        (QuestBoard.showQuestBoard (some 0) (initialQuestBoard : QuestBoardState ℕ))).isVisible
      = true
    ∧ (QuestBoard.okPointerDown
        (QuestBoard.showQuestBoard (some 0) (initialQuestBoard : QuestBoardState ℕ))).containerVisible
      = true
    ∧ (QuestBoard.okPointerDown
        (QuestBoard.showQuestBoard (some 0) (initialQuestBoard : QuestBoardState ℕ))).closeTweens
      = [300] :=
  ⟨rfl, rfl, rfl, rfl⟩

/-- C1 amended: for every registered close callback, clicking OK on an open
panel with no fade-out already pending invokes the stored callback exactly
once, synchronously at the moment close is requested (before any transition
time has elapsed), while the panel is marked invisible only after the 300 ms
fade-out transition completes: it stays visible under any elapsed time
strictly below 300 and becomes invisible once 300 has elapsed. -/
theorem c1_amended {κ : Type} (s : QuestBoardState κ) (cb : κ)
    (hvis : s.isVisible = true) (hcb : s.onCloseCallback = some cb)
    (hct : s.closeTweens = []) :
    (QuestBoard.okPointerDown s).callbackLog = s.callbackLog ++ [cb]
    ∧ (QuestBoard.okPointerDown s).isVisible = true
    ∧ (QuestBoard.okPointerDown s).containerVisible = s.containerVisible
    ∧ (∀ dt : ℚ, 0 ≤ dt → dt < 300 →
        (QuestBoard.tweenTick dt (QuestBoard.okPointerDown s)).isVisible = true
        ∧ (QuestBoard.tweenTick dt (QuestBoard.okPointerDown s)).containerVisible
            = s.containerVisible)
    ∧ (∀ dt : ℚ, 300 ≤ dt →
        (QuestBoard.tweenTick dt (QuestBoard.okPointerDown s)).isVisible = false
        ∧ (QuestBoard.tweenTick dt (QuestBoard.okPointerDown s)).containerVisible = false) := by
  have hok : QuestBoard.okPointerDown s
      = { s with closeTweens := [300], tweensStarted := s.tweensStarted + 1,
                 callbackLog := s.callbackLog ++ [cb] } := by
    unfold QuestBoard.okPointerDown QuestBoard.hideQuestBoard
    simp [hvis, hcb, hct]
  refine ⟨by rw [hok], by rw [hok]; exact hvis, by rw [hok], ?_, ?_⟩
  · intro dt h0 h300
    have hnd : ¬ ((300 : ℚ) - dt ≤ 0) := by linarith
    rw [hok]
    unfold QuestBoard.tweenTick
    simp [hnd, hvis]
  · intro dt h300
    have hd : (300 : ℚ) - dt ≤ 0 := by linarith
    rw [hok]
    unfold QuestBoard.tweenTick
    simp [hd]

/-- C1 witness: concrete freshly opened panel with callback 0; clicking OK
logs exactly one synchronous invocation. -/
theorem c1_witness :
    (QuestBoard.showQuestBoard (some 0) (initialQuestBoard : QuestBoardState ℕ)).isVisible = true
    ∧ (QuestBoard.showQuestBoard (some 0) (initialQuestBoard : QuestBoardState ℕ)).onCloseCallback
        = some 0
    ∧ (QuestBoard.showQuestBoard (some 0) (initialQuestBoard : QuestBoardState ℕ)).closeTweens = []
    ∧ (QuestBoard.okPointerDown
        (QuestBoard.showQuestBoard (some 0) (initialQuestBoard : QuestBoardState ℕ))).callbackLog
      = (QuestBoard.showQuestBoard (some 0) (initialQuestBoard : QuestBoardState ℕ)).callbackLog
          ++ [0] :=
  ⟨rfl, rfl, rfl, (c1_amended _ 0 rfl rfl rfl).1⟩

namespace WORLD_CONFIG

/-- Source: WORLD_CONFIG.GROUND_OFFSET_FROM_BOTTOM in GameConstants. -/
def GROUND_OFFSET_FROM_BOTTOM : ℚ := 100

/-- Source: the game config height (1920 x 1080); scene.scale.height. -/
def SCENE_HEIGHT : ℚ := 1080

end WORLD_CONFIG

namespace OBSTACLE_CONFIG

/-- Source: OBSTACLE_CONFIG.OOZE.X_POSITION in GameConstants. -/
def X_POSITION : ℚ := 1200

/-- Source: OBSTACLE_CONFIG.OOZE.Y_OFFSET in GameConstants. -/
def Y_OFFSET : ℚ := 50

/-- Source: OBSTACLE_CONFIG.OOZE.INTERACTION_DISTANCE in GameConstants. -/
def INTERACTION_DISTANCE : ℚ := 100

end OBSTACLE_CONFIG

/-- Source: OozeObstacle constructor — x is OBSTACLE_CONFIG.OOZE.X_POSITION. -/
def oozeX : ℚ := OBSTACLE_CONFIG.X_POSITION

/-- Source: OozeObstacle constructor — y is ground level minus the ooze
offset: (scene.scale.height - GROUND_OFFSET_FROM_BOTTOM) - Y_OFFSET. -/
def oozeY : ℚ :=
  (WORLD_CONFIG.SCENE_HEIGHT - WORLD_CONFIG.GROUND_OFFSET_FROM_BOTTOM) - OBSTACLE_CONFIG.Y_OFFSET

/-- State of the Game scene: the player, the ooze obstacle fields
(chat-bubble visibility plus instrumentation counting every actual
visibility-changing show/hide side effect), the lazily guarded quest board
reference (null until initializeQuestBoard runs), and the scene field
isPlayerNearOoze used to debounce the proximity toggle.  The quest board
callback type is Unit: the only callback the scene ever registers is the
closure that re-enables player movement. -/
structure GameState where
  player : PlayerState
  chatBubbleVisible : Bool
  showEffects : ℕ
  hideEffects : ℕ
  questBoard : Option (QuestBoardState Unit)
  isPlayerNearOoze : Bool
deriving DecidableEq

namespace Game

/-- Source: OozeObstacle.showChatBubble — guarded: only acts when the bubble
is currently hidden (the bubble image and text always exist in the scene, so
the existence checks of the source are always true here). -/
def showChatBubble (g : GameState) : GameState :=
  if !g.chatBubbleVisible then
    { g with chatBubbleVisible := true, showEffects := g.showEffects + 1 }
  else g

/-- Source: OozeObstacle.hideChatBubble — guarded: only acts when the bubble
is currently visible. -/
def hideChatBubble (g : GameState) : GameState :=
  if g.chatBubbleVisible then
    { g with chatBubbleVisible := false, hideEffects := g.hideEffects + 1 }
  else g

/-- Source: OozeObstacle.initializeQuestBoard — creates the quest board only
when the reference is still null. -/
def initializeQuestBoard (g : GameState) : GameState :=
  match g.questBoard with
  | none => { g with questBoard := some initialQuestBoard }
  | some _ => g

/-- Source: OozeObstacle.onPlayerInteract — hides the chat bubble, disables
player movement, ensures the quest board exists, then opens it with the
close callback that re-enables player movement. -/
def onPlayerInteract (g : GameState) : GameState :=
  let g1 := hideChatBubble g
  let g2 := { g1 with player := Player.disableMovement g1.player }
  let g3 := initializeQuestBoard g2
  match g3.questBoard with
  | some qb => { g3 with questBoard := some (QuestBoard.showQuestBoard (some ()) qb) }
  | none => g3

/-- Source: BaseObstacle.isPlayerNearby specialized to the ooze anchor and
interaction distance, in executable squared-distance form (equivalent to the
square-root form by isPlayerNearbyB_iff since the radius 100 is
nonnegative). -/
def nearOoze (px py : ℚ) : Bool :=
  isPlayerNearbyB px py oozeX oozeY OBSTACLE_CONFIG.INTERACTION_DISTANCE

/-- Source: Game.checkObstacleInteractions — recomputes proximity from the
player position, toggles the chat bubble only when the proximity boolean
changed since the previous frame, then forwards an edge-triggered interact
press to the obstacle while nearby. -/
def checkObstacleInteractions (k : KeyboardState) (g : GameState) : GameState :=
  let isNearOoze := nearOoze g.player.x g.player.y
  let g1 :=
    if isNearOoze != g.isPlayerNearOoze then
      let g2 := { g with isPlayerNearOoze := isNearOoze }
      if isNearOoze then showChatBubble g2 else hideChatBubble g2
    else g
  if isNearOoze && InputManager.isInteractPressed k then onPlayerInteract g1 else g1

/-- Source: Game.update, one frame of the scene.  The engine integrates
physics between frames, so the frame event carries the player position the
physics step produced (px, py) together with the keyboard snapshot and the
ground-contact flag.  The scene then updates the background (not part of
this state), the player, the ooze (whose update is a no-op), and finally
runs checkObstacleInteractions. -/
def gameFrame (k : KeyboardState) (px py : ℚ) (isOnGround : Bool) (g : GameState) : GameState :=
  let moved := { g with player := { g.player with x := px, y := py } }
  let updated := { moved with player := Player.update k isOnGround moved.player }
  checkObstacleInteractions k updated

/-- Source: the okButton pointerdown handler, lifted to the scene.  The
button only receives the click while its container is visible.  The stored
close callback is the closure registered by onPlayerInteract, whose body
re-enables player movement. -/
def gameOkClick (g : GameState) : GameState :=
  match g.questBoard with
  | none => g
  | some qb =>
    if qb.containerVisible then
      { g with questBoard := some (QuestBoard.okPointerDown qb),
               player := match qb.onCloseCallback with
                 | some _ => Player.enableMovement g.player
                 | none => g.player }
    else g

/-- Engine time passing: the only time-based behavior owned by the scene is
the quest-board tween pair. -/
def gameTick (dt : ℚ) (g : GameState) : GameState :=
  { g with questBoard := g.questBoard.map (QuestBoard.tweenTick dt) }

/-- Source: Player.createPlayer — starting position from PLAYER_CONFIG,
movement enabled, at rest, idle animation. -/
def initialPlayer : PlayerState :=
  { x := PLAYER_CONFIG.STARTING_X, y := PLAYER_CONFIG.STARTING_Y,
    velocityX := 0, velocityY := 0, canMove := true, flipX := false,
    anim := PlayerAnim.idle, dustSpawns := 0 }

/-- Source: Game.create — creates the systems and the OozeObstacle, whose
setupObstacle runs createChatBubble (which ends in hideChatBubble on the
initially hidden bubble) and then initializeQuestBoard, eagerly constructing
the quest board before any input is processed. -/
def sceneCreate : GameState :=
  initializeQuestBoard (hideChatBubble
    { player := initialPlayer, chatBubbleVisible := false, showEffects := 0,
      hideEffects := 0, questBoard := none, isPlayerNearOoze := false })

/-- Reachable states of the Game scene: the created scene, followed by any
interleaving of frames (with engine-chosen player positions and inputs),
OK-button clicks, and nonnegative time passing. -/
inductive Reachable : GameState → Prop where
  | create : Reachable sceneCreate
  | frame {g : GameState} (k : KeyboardState) (px py : ℚ) (isOnGround : Bool) :
      Reachable g → Reachable (gameFrame k px py isOnGround g)
  | ok {g : GameState} : Reachable g → Reachable (gameOkClick g)
  | tick {g : GameState} (dt : ℚ) : 0 ≤ dt → Reachable g → Reachable (gameTick dt g)

end Game

lemma update_pos_canMove (k : KeyboardState) (isOnGround : Bool) (p : PlayerState) :
    (Player.update k isOnGround p).x = ((round p.x : ℤ) : ℚ)
    ∧ (Player.update k isOnGround p).y = ((round p.y : ℤ) : ℚ)
    ∧ (Player.update k isOnGround p).canMove = p.canMove := by
  unfold Player.update Player.preventPixelBlur Player.handleMovement Player.jump
  dsimp only
  split
  · simp
  · split <;> split <;> simp

lemma showChatBubble_fields (g : GameState) :
    (Game.showChatBubble g).player = g.player
    ∧ (Game.showChatBubble g).questBoard = g.questBoard := by
  unfold Game.showChatBubble
  split <;> simp

lemma hideChatBubble_fields (g : GameState) :
    (Game.hideChatBubble g).player = g.player
    ∧ (Game.hideChatBubble g).questBoard = g.questBoard := by
  unfold Game.hideChatBubble
  split <;> simp

lemma onPlayerInteract_canMove (g : GameState) :
    (Game.onPlayerInteract g).player.canMove = false := by
  unfold Game.onPlayerInteract Game.initializeQuestBoard
  cases hq : (Game.hideChatBubble g).questBoard <;>
    simp [hq, Player.disableMovement]

lemma onPlayerInteract_questBoard_isSome (g : GameState) :
    (Game.onPlayerInteract g).questBoard.isSome = true := by
  unfold Game.onPlayerInteract Game.initializeQuestBoard
  cases hq : (Game.hideChatBubble g).questBoard <;> simp [hq]

lemma checkObstacle_cases (k : KeyboardState) (g : GameState) :
    ((Game.checkObstacleInteractions k g).player.canMove = false
      ∧ (Game.checkObstacleInteractions k g).questBoard.isSome = true)
    ∨ ((Game.checkObstacleInteractions k g).player = g.player
      ∧ (Game.checkObstacleInteractions k g).questBoard = g.questBoard) := by
  unfold Game.checkObstacleInteractions
  dsimp only
  split
  · left
    exact ⟨onPlayerInteract_canMove _, onPlayerInteract_questBoard_isSome _⟩
  · right
    split
    · split
      · exact ⟨(showChatBubble_fields _).1, (showChatBubble_fields _).2⟩
      · exact ⟨(hideChatBubble_fields _).1, (hideChatBubble_fields _).2⟩
    · exact ⟨rfl, rfl⟩

lemma gameFrame_cases (k : KeyboardState) (px py : ℚ) (isOnGround : Bool) (g : GameState) :
    ((Game.gameFrame k px py isOnGround g).player.canMove = false
      ∧ (Game.gameFrame k px py isOnGround g).questBoard.isSome = true)
    ∨ ((Game.gameFrame k px py isOnGround g).player.canMove = g.player.canMove
      ∧ (Game.gameFrame k px py isOnGround g).questBoard = g.questBoard) := by
  unfold Game.gameFrame
  dsimp only
  rcases checkObstacle_cases k
    { g with player := Player.update k isOnGround { g.player with x := px, y := py } }
    with ⟨h1, h2⟩ | ⟨h1, h2⟩
  · exact Or.inl ⟨h1, h2⟩
  · refine Or.inr ⟨?_, h2⟩
    rw [h1]
    exact (update_pos_canMove k isOnGround { g.player with x := px, y := py }).2.2

lemma okPointerDown_not_idle {κ : Type} (qb : QuestBoardState κ)
    (h1 : (QuestBoard.okPointerDown qb).isVisible = true) :
    (QuestBoard.okPointerDown qb).closeTweens ≠ [] := by
  unfold QuestBoard.okPointerDown QuestBoard.hideQuestBoard
  unfold QuestBoard.okPointerDown QuestBoard.hideQuestBoard at h1
  cases hv : qb.isVisible with
  | true =>
    cases hcb : qb.onCloseCallback <;> simp [hv, hcb]
  | false =>
    exfalso
    cases hcb : qb.onCloseCallback <;> simp [hv, hcb] at h1

lemma tweenTick_open_noPending {κ : Type} (dt : ℚ) (qb : QuestBoardState κ)
    (h1 : (QuestBoard.tweenTick dt qb).isVisible = true)
    (h2 : (QuestBoard.tweenTick dt qb).closeTweens = []) :
    qb.isVisible = true ∧ qb.closeTweens = [] := by
  unfold QuestBoard.tweenTick at h1 h2
  dsimp only at h1 h2
  by_cases hd : ((qb.closeTweens.map (fun t => t - dt)).any (fun t => decide (t ≤ 0))) = true
  · rw [if_pos hd] at h1
    exact absurd h1 (by simp)
  · rw [if_neg hd] at h1
    refine ⟨h1, ?_⟩
    cases hq : qb.closeTweens with
    | nil => rfl
    | cons t ts =>
      exfalso
      rw [hq] at hd h2
      have hnle : ¬ (t - dt ≤ 0) := by
        intro hle
        exact hd (by simp only [List.map_cons, List.any_cons, Bool.or_eq_true,
          decide_eq_true_eq]; exact Or.inl hle)
      have hpos : (0 : ℚ) < t - dt := not_le.mp hnle
      simp only [List.map_cons, List.filter_cons, decide_eq_true_eq, if_pos hpos] at h2
      exact absurd h2 (by simp)


/-- While the quest board is open with no fade-out pending, player movement
is disabled — established by induction over all reachable scene states. -/
lemma reachable_open_disabled {g : GameState} (hg : Game.Reachable g) :
    ∀ qb, g.questBoard = some qb → qb.isVisible = true → qb.closeTweens = [] →
      g.player.canMove = false := by
  induction hg with
  | create =>
    intro qb hqb hvis hct
    exfalso
    have h0 : Game.sceneCreate.questBoard = some initialQuestBoard := rfl
    rw [h0] at hqb
    injection hqb with h
    rw [← h] at hvis
    simp [initialQuestBoard] at hvis
  | frame k px py isOnGround hr ih =>
    intro qb hqb hvis hct
    rcases gameFrame_cases k px py isOnGround _ with ⟨h1, _⟩ | ⟨h1, h2⟩
    · exact h1
    · rw [h1]
      exact ih qb (h2 ▸ hqb) hvis hct
  | ok hr ih =>
    rename_i gprev
    intro qb hqb hvis hct
    rcases hq : gprev.questBoard with _ | qb0
    · unfold Game.gameOkClick at hqb ⊢
      rw [hq] at hqb ⊢
      dsimp only at hqb ⊢
      exact ih qb hqb hvis hct
    · unfold Game.gameOkClick at hqb ⊢
      rw [hq] at hqb ⊢
      dsimp only at hqb ⊢
      by_cases hcv : qb0.containerVisible = true
      · rw [if_pos hcv] at hqb ⊢
        exfalso
        dsimp only at hqb
        injection hqb with h
        rw [← h] at hvis hct
        exact okPointerDown_not_idle qb0 hvis hct
      · rw [if_neg hcv] at hqb ⊢
        exact ih qb hqb hvis hct
  | tick dt hdt hr ih =>
    rename_i gprev
    intro qb hqb hvis hct
    rcases hq : gprev.questBoard with _ | qb0
    · unfold Game.gameTick at hqb ⊢
      rw [hq] at hqb ⊢
      dsimp only at hqb ⊢
      exact absurd hqb (by simp)
    · unfold Game.gameTick at hqb ⊢
      rw [hq] at hqb ⊢
      dsimp only at hqb ⊢
      injection hqb with h
      rw [← h] at hvis hct
      obtain ⟨hv0, hc0⟩ := tweenTick_open_noPending dt qb0 hvis hct
      exact ih qb0 hq hv0 hc0

/-- Number of quest-board panels currently open in the scene. -/
def openPanels (g : GameState) : ℕ :=
  match g.questBoard with
  | some qb => if qb.isVisible then 1 else 0
  | none => 0

lemma nearOoze_anchor : Game.nearOoze 1200 930 = true := by
  simp only [Game.nearOoze, isPlayerNearbyB, oozeX, oozeY, OBSTACLE_CONFIG.X_POSITION,
    OBSTACLE_CONFIG.Y_OFFSET, OBSTACLE_CONFIG.INTERACTION_DISTANCE,
    WORLD_CONFIG.SCENE_HEIGHT, WORLD_CONFIG.GROUND_OFFSET_FROM_BOTTOM, decide_eq_true_eq]
  norm_num

lemma update_at_anchor :
    Player.update ⟨false, false, false, false, false, true⟩ true
      ⟨1200, 930, 0, 0, true, false, PlayerAnim.idle, 0⟩
    = ⟨1200, 930, 0, 0, true, false, PlayerAnim.idle, 0⟩ := by
  unfold Player.update Player.handleMovement Player.preventPixelBlur
    InputManager.getHorizontalDirection InputManager.isMovingLeft InputManager.isMovingRight
    InputManager.isJumping InputManager.isRunning
  norm_num [round_eq]

lemma frame_at_anchor :
    Game.gameFrame ⟨false, false, false, false, false, true⟩ 1200 930 true Game.sceneCreate
      = ⟨⟨1200, 930, 0, 0, false, false, PlayerAnim.idle, 0⟩, false, 1, 1,
          some ⟨true, true, 0, 0.8, 0.8, some (), [400], [], 1, []⟩, true⟩ := by
  unfold Game.gameFrame
  dsimp only
  show Game.checkObstacleInteractions ⟨false, false, false, false, false, true⟩
    { player := Player.update ⟨false, false, false, false, false, true⟩ true
        ⟨1200, 930, 0, 0, true, false, PlayerAnim.idle, 0⟩,
      chatBubbleVisible := false, showEffects := 0, hideEffects := 0,
      questBoard := some initialQuestBoard, isPlayerNearOoze := false } = _
  rw [update_at_anchor]
  unfold Game.checkObstacleInteractions
  dsimp only
  rw [nearOoze_anchor]
  simp only [Bool.bne_false, Bool.and_true, if_pos, InputManager.isInteractPressed]
  unfold Game.onPlayerInteract Game.showChatBubble Game.hideChatBubble
    Game.initializeQuestBoard Player.disableMovement QuestBoard.showQuestBoard initialQuestBoard
  simp

/-- C2 counterexample: from scene creation, one frame with the player at the
ooze anchor pressing interact opens the panel and disables movement; the OK
click then re-enables movement synchronously while the panel is still marked
visible (its fade-out only pending), so a reachable state has the panel open
and the movement-enabled flag true, refuting the claimed invariant. -/
theorem c2_counterexample :
    Game.Reachable (Game.gameOkClick
      (Game.gameFrame ⟨false, false, false, false, false, true⟩ 1200 930 true Game.sceneCreate))
    ∧ ((Game.gameOkClick
        (Game.gameFrame ⟨false, false, false, false, false, true⟩ 1200 930 true
          Game.sceneCreate)).questBoard.map (fun qb => qb.isVisible)) = some true
    ∧ (Game.gameOkClick
        (Game.gameFrame ⟨false, false, false, false, false, true⟩ 1200 930 true
          Game.sceneCreate)).player.canMove = true := by
  refine ⟨Game.Reachable.ok (Game.Reachable.frame _ _ _ _ Game.Reachable.create), ?_, ?_⟩
  · rw [frame_at_anchor]
    rfl
  · rw [frame_at_anchor]
    rfl

/-- C2 amended: in every reachable scene state at most one panel is open;
whenever the panel is open and its close transition is not pending, the
movement-enabled flag is false (during the close fade-out the callback has
already re-enabled movement while the panel is still marked visible); and
neither frames nor time passing ever set the movement-enabled flag back to
true — only the OK-click close path does. -/
theorem c2_amended (g : GameState) (hg : Game.Reachable g) :
    openPanels g ≤ 1
    ∧ (∀ qb, g.questBoard = some qb → qb.isVisible = true → qb.closeTweens = [] →
        g.player.canMove = false)
    ∧ (∀ (k : KeyboardState) (px py : ℚ) (isOnGround : Bool) (g2 : GameState),
        g2.player.canMove = false →
          (Game.gameFrame k px py isOnGround g2).player.canMove = false)
    ∧ (∀ (dt : ℚ) (g2 : GameState),
        (Game.gameTick dt g2).player.canMove = g2.player.canMove) := by
  refine ⟨?_, reachable_open_disabled hg, ?_, ?_⟩
  · unfold openPanels
    rcases g.questBoard with _ | qb
    · exact Nat.zero_le _
    · dsimp only
      split <;> simp
  · intro k px py isOnGround g2 h2
    rcases gameFrame_cases k px py isOnGround g2 with ⟨h1, _⟩ | ⟨h1, _⟩
    · exact h1
    · rw [h1]
      exact h2
  · intro dt g2
    rfl

/-- C2 witness: the amended invariant instantiated at the created scene. -/
theorem c2_witness : openPanels Game.sceneCreate ≤ 1 :=
  (c2_amended Game.sceneCreate Game.Reachable.create).1

lemma gameFrame_questBoard_isSome (k : KeyboardState) (px py : ℚ) (isOnGround : Bool)
    (g : GameState) (h : g.questBoard.isSome = true) :
    (Game.gameFrame k px py isOnGround g).questBoard.isSome = true := by
  rcases gameFrame_cases k px py isOnGround g with ⟨_, h2⟩ | ⟨_, h2⟩
  · exact h2
  · rw [h2]
    exact h

/-- C6 counterexample: at scene creation — before any input at all, hence
before the first interact input — the quest board already exists: the
OozeObstacle constructor (setupObstacle) eagerly runs initializeQuestBoard,
so no lazy on-first-interaction construction happens. -/
theorem c6_counterexample :
    Game.sceneCreate.questBoard = some initialQuestBoard
    ∧ Game.sceneCreate.questBoard.isSome = true :=
  ⟨rfl, rfl⟩

/-- C6 amended: the panel is constructed eagerly during obstacle setup at
scene creation rather than lazily on first interaction; it then persists in
every reachable scene state, and the interaction-handler initialization call
is a no-op whenever the board already exists. -/
theorem c6_amended :
    Game.sceneCreate.questBoard = some initialQuestBoard
    ∧ (∀ g : GameState, Game.Reachable g → g.questBoard.isSome = true)
    ∧ (∀ g : GameState, g.questBoard.isSome = true → Game.initializeQuestBoard g = g) := by
  refine ⟨rfl, ?_, ?_⟩
  · intro g hg
    induction hg with
    | create => rfl
    | frame k px py isOnGround hr ih => exact gameFrame_questBoard_isSome k px py isOnGround _ ih
    | ok hr ih =>
      rename_i gprev
      unfold Game.gameOkClick
      rcases hq : gprev.questBoard with _ | qb0
      · rw [hq] at ih
        exact absurd ih (by simp)
      · dsimp only
        split <;> simp [hq]
    | tick dt hdt hr ih =>
      rename_i gprev
      unfold Game.gameTick
      dsimp only
      rcases hq : gprev.questBoard with _ | qb0
      · rw [hq] at ih
        exact absurd ih (by simp)
      · simp [hq]
  · intro g hsome
    unfold Game.initializeQuestBoard
    rcases hq : g.questBoard with _ | qb0
    · rw [hq] at hsome
      exact absurd hsome (by simp)
    · rfl

/-- C6 witness: the persistence and no-op clauses instantiated at the
created scene. -/
theorem c6_witness :
    Game.sceneCreate.questBoard.isSome = true
    ∧ Game.initializeQuestBoard Game.sceneCreate = Game.sceneCreate :=
  ⟨(c6_amended).2.1 Game.sceneCreate Game.Reachable.create,
   (c6_amended).2.2 Game.sceneCreate ((c6_amended).2.1 Game.sceneCreate Game.Reachable.create)⟩

/-- Proximity of the ooze as recomputed by checkObstacleInteractions after
the player update of the same frame rounded the engine-integrated position. -/
def nearAfterRound (px py : ℚ) : Bool :=
  Game.nearOoze ((round px : ℤ) : ℚ) ((round py : ℤ) : ℚ)

lemma gameFrame_no_interact (k : KeyboardState) (px py : ℚ) (isOnGround : Bool) (g : GameState)
    (hk : InputManager.isInteractPressed k = false)
    (hinv : g.chatBubbleVisible = g.isPlayerNearOoze) :
    (Game.gameFrame k px py isOnGround g).chatBubbleVisible = nearAfterRound px py
    ∧ (Game.gameFrame k px py isOnGround g).isPlayerNearOoze = nearAfterRound px py
    ∧ (Game.gameFrame k px py isOnGround g).showEffects
        = g.showEffects + (if nearAfterRound px py && !g.isPlayerNearOoze then 1 else 0)
    ∧ (Game.gameFrame k px py isOnGround g).hideEffects
        = g.hideEffects + (if !(nearAfterRound px py) && g.isPlayerNearOoze then 1 else 0) := by
  obtain ⟨hx, hy, _⟩ := update_pos_canMove k isOnGround { g.player with x := px, y := py }
  dsimp only at hx hy
  unfold Game.gameFrame Game.checkObstacleInteractions
  dsimp only
  rw [hk, hx, hy]
  unfold nearAfterRound
  cases hm : Game.nearOoze ((round px : ℤ) : ℚ) ((round py : ℤ) : ℚ) <;>
    cases hbo : g.isPlayerNearOoze <;>
      simp [Game.showChatBubble, Game.hideChatBubble, hinv, hbo]

/-- One frame event of the scene update loop: the keyboard snapshot, the
engine-integrated player position, and the ground-contact flag. -/
structure FrameInput where
  keys : KeyboardState
  px : ℚ
  py : ℚ
  isOnGround : Bool
deriving DecidableEq

/-- Folds a sequence of frame events through the scene update. -/
def runFrames (frames : List FrameInput) (g : GameState) : GameState :=
  frames.foldl (fun s f => Game.gameFrame f.keys f.px f.py f.isOnGround s) g

/-- Number of false-to-true crossings in a boolean trace starting from b. -/
def risingSteps (b : Bool) : List Bool → ℕ
  | [] => 0
  | x :: xs => (if x && !b then 1 else 0) + risingSteps x xs

/-- Number of true-to-false crossings in a boolean trace starting from b. -/
def fallingSteps (b : Bool) : List Bool → ℕ
  | [] => 0
  | x :: xs => (if !x && b then 1 else 0) + fallingSteps x xs

lemma update_noE_at_anchor :
    Player.update ⟨false, false, false, false, false, false⟩ true
      ⟨1200, 930, 0, 0, true, false, PlayerAnim.idle, 0⟩
    = ⟨1200, 930, 0, 0, true, false, PlayerAnim.idle, 0⟩ := by
  unfold Player.update Player.handleMovement Player.preventPixelBlur
    InputManager.getHorizontalDirection InputManager.isMovingLeft InputManager.isMovingRight
    InputManager.isJumping InputManager.isRunning
  norm_num [round_eq]

lemma frame_noE_at_anchor :
    Game.gameFrame ⟨false, false, false, false, false, false⟩ 1200 930 true Game.sceneCreate
      = ⟨⟨1200, 930, 0, 0, true, false, PlayerAnim.idle, 0⟩, true, 1, 0,
          some initialQuestBoard, true⟩ := by
  unfold Game.gameFrame
  dsimp only
  show Game.checkObstacleInteractions ⟨false, false, false, false, false, false⟩
    { player := Player.update ⟨false, false, false, false, false, false⟩ true
        ⟨1200, 930, 0, 0, true, false, PlayerAnim.idle, 0⟩,
      chatBubbleVisible := false, showEffects := 0, hideEffects := 0,
      questBoard := some initialQuestBoard, isPlayerNearOoze := false } = _
  rw [update_noE_at_anchor]
  unfold Game.checkObstacleInteractions
  dsimp only
  rw [nearOoze_anchor]
  simp [Game.showChatBubble, InputManager.isInteractPressed]

lemma frame_E_after_anchor :
    Game.gameFrame ⟨false, false, false, false, false, true⟩ 1200 930 true
      ⟨⟨1200, 930, 0, 0, true, false, PlayerAnim.idle, 0⟩, true, 1, 0,
        some initialQuestBoard, true⟩
      = ⟨⟨1200, 930, 0, 0, false, false, PlayerAnim.idle, 0⟩, false, 1, 1,
          some ⟨true, true, 0, 0.8, 0.8, some (), [400], [], 1, []⟩, true⟩ := by
  unfold Game.gameFrame
  dsimp only
  show Game.checkObstacleInteractions ⟨false, false, false, false, false, true⟩
    { player := Player.update ⟨false, false, false, false, false, true⟩ true
        ⟨1200, 930, 0, 0, true, false, PlayerAnim.idle, 0⟩,
      chatBubbleVisible := true, showEffects := 1, hideEffects := 0,
      questBoard := some initialQuestBoard, isPlayerNearOoze := true } = _
  rw [update_at_anchor]
  unfold Game.checkObstacleInteractions
  dsimp only
  rw [nearOoze_anchor]
  unfold Game.onPlayerInteract Game.hideChatBubble Game.initializeQuestBoard
    Player.disableMovement QuestBoard.showQuestBoard initialQuestBoard
  simp [InputManager.isInteractPressed]

lemma nearAfterRound_anchor : nearAfterRound 1200 930 = true := by
  unfold nearAfterRound
  have h1 : round (1200 : ℚ) = 1200 := by norm_num [round_eq]
  have h2 : round (930 : ℚ) = 930 := by norm_num [round_eq]
  rw [h1, h2]
  show Game.nearOoze ((1200 : ℤ) : ℚ) ((930 : ℤ) : ℚ) = true
  norm_num
  exact nearOoze_anchor

/-- C5 counterexample: a frame entering the radius (one show effect on the
crossing) followed by a frame still inside the radius on which interact is
pressed.  The interaction handler hides the affordance, so a hide side
effect fires on a frame where the proximity boolean keeps its previous value
and with zero true-to-false crossings in the trace, refuting the claim that
the side effects fire only on crossings. -/
theorem c5_counterexample :
    ([⟨⟨false, false, false, false, false, false⟩, 1200, 930, true⟩,
      ⟨⟨false, false, false, false, false, true⟩, 1200, 930, true⟩] : List FrameInput).map
        (fun f => nearAfterRound f.px f.py) = [true, true]
    ∧ fallingSteps Game.sceneCreate.isPlayerNearOoze [true, true] = 0
    ∧ (runFrames
        [⟨⟨false, false, false, false, false, false⟩, 1200, 930, true⟩,
         ⟨⟨false, false, false, false, false, true⟩, 1200, 930, true⟩]
        Game.sceneCreate).hideEffects = 1 := by
  refine ⟨by simp [nearAfterRound_anchor], rfl, ?_⟩
  unfold runFrames
  simp only [List.foldl_cons, List.foldl_nil]
  rw [frame_noE_at_anchor, frame_E_after_anchor]

/-- C5 amended: over any sequence of frames in which the interact input is
never pressed, starting from any state where the affordance visibility
agrees with the stored proximity flag (as at scene creation), the show and
hide side effects fire exactly once per crossing of the proximity boolean —
show effects equal the false-to-true crossings and hide effects the
true-to-false crossings of the per-frame proximity trace — and never on a
frame where the boolean keeps its previous value; interaction frames can in
addition hide the affordance without any crossing. -/
theorem c5_amended (frames : List FrameInput) (g : GameState)
    (hk : ∀ f ∈ frames, InputManager.isInteractPressed f.keys = false)
    (hinv : g.chatBubbleVisible = g.isPlayerNearOoze) :
    (runFrames frames g).showEffects
      = g.showEffects
        + risingSteps g.isPlayerNearOoze (frames.map (fun f => nearAfterRound f.px f.py))
    ∧ (runFrames frames g).hideEffects
      = g.hideEffects
        + fallingSteps g.isPlayerNearOoze (frames.map (fun f => nearAfterRound f.px f.py))
    ∧ (runFrames frames g).chatBubbleVisible = (runFrames frames g).isPlayerNearOoze := by
  induction frames generalizing g with
  | nil =>
    exact ⟨by simp [runFrames, risingSteps], by simp [runFrames, fallingSteps], by
      simpa [runFrames] using hinv⟩
  | cons f fs ih =>
    obtain ⟨h1, h2, h3, h4⟩ :=
      gameFrame_no_interact f.keys f.px f.py f.isOnGround g (hk f (by simp)) hinv
    have hrun : runFrames (f :: fs) g
        = runFrames fs (Game.gameFrame f.keys f.px f.py f.isOnGround g) := rfl
    have hk2 : ∀ f2 ∈ fs, InputManager.isInteractPressed f2.keys = false :=
      fun f2 hf2 => hk f2 (by simp [hf2])
    obtain ⟨e1, e2, e3⟩ := ih (Game.gameFrame f.keys f.px f.py f.isOnGround g) hk2 (h1.trans h2.symm)
    refine ⟨?_, ?_, ?_⟩
    · rw [hrun, e1, h3, h2]
      simp only [List.map_cons, risingSteps]
      omega
    · rw [hrun, e2, h4, h2]
      simp only [List.map_cons, fallingSteps]
      omega
    · rw [hrun] at *
      exact e3

/-- C5 witness: ten consecutive interaction-free frames with the player
stationary inside the radius produce exactly one show effect. -/
theorem c5_witness :
    (∀ f ∈ List.replicate 10
        (⟨⟨false, false, false, false, false, false⟩, 1200, 930, true⟩ : FrameInput),
      InputManager.isInteractPressed f.keys = false)
    ∧ Game.sceneCreate.chatBubbleVisible = Game.sceneCreate.isPlayerNearOoze
    ∧ (runFrames (List.replicate 10
          ⟨⟨false, false, false, false, false, false⟩, 1200, 930, true⟩)
        Game.sceneCreate).showEffects
      = Game.sceneCreate.showEffects
        + risingSteps Game.sceneCreate.isPlayerNearOoze
            ((List.replicate 10
              (⟨⟨false, false, false, false, false, false⟩, 1200, 930, true⟩ : FrameInput)).map
              (fun f => nearAfterRound f.px f.py))
    ∧ (runFrames (List.replicate 10
          ⟨⟨false, false, false, false, false, false⟩, 1200, 930, true⟩)
        Game.sceneCreate).showEffects = 1 := by
  have hmem : ∀ f ∈ List.replicate 10
      (⟨⟨false, false, false, false, false, false⟩, 1200, 930, true⟩ : FrameInput),
      InputManager.isInteractPressed f.keys = false := by
    intro f hf
    rw [List.eq_of_mem_replicate hf]
    rfl
  have hc := c5_amended (List.replicate 10
    ⟨⟨false, false, false, false, false, false⟩, 1200, 930, true⟩) Game.sceneCreate hmem rfl
  refine ⟨hmem, rfl, hc.1, ?_⟩
  rw [hc.1]
  simp only [List.map_replicate]
  rw [nearAfterRound_anchor]
  rfl
